import Mathlib

/-!
Verification of the `panda_math` repository, which consists of the single
packaging manifest `setup.py`.  The manifest is evaluated at module import
time: it imports `setup` and `find_packages` from setuptools, reads
`README.md` from the working directory, and makes one call to `setup(...)`
with literal keyword arguments.  We embed that evaluation as a function of
the file-system state, together with a small abstract syntax for the
module's top-level statements and the literal source text.
-/

/-- The exact text of `src/setup.py`, line by line (the file has no trailing
newline, so the final line is the closing parenthesis). -/
def sourceLines : List String :=
  [ "from setuptools import setup, find_packages"
  , ""
  , "setup("
  , "    name=\"panda_math\",  # Must be unique on PyPI"
  , "    version=\"0.1.1\","
  , "    packages=find_packages(),"
  , "    install_requires=[\"numpy\"],"
  , "    author=\"Colin Politi\","
  , "    author_email=\"urboycolinthepanda@gmail.com\","
  , "    description=\"A Vector, Matrix, and transformation utilities for 2D, 3D graphics, and game development.\","
  , "    long_description=open(\"README.md\", encoding=\"utf-8\").read(),"
  , "    long_description_content_type=\"text/markdown\","
  , "    url=\"https://github.com/ColinThePanda/panda_math\","
  , "    classifiers=["
  , "        \"Programming Language :: Python :: 3\","
  , "        \"License :: OSI Approved :: MIT License\","
  , "        \"Operating System :: OS Independent\","
  , "    ],"
  , "    python_requires=\">=3.6\","
  , ")" ]

/-- The source file as a single string. -/
def sourceText : String := String.intercalate "\n" sourceLines

/-- A file-system state: a path maps to `none` when no such file exists, and
to `some c` when the file exists, where `c : Option String` is the UTF-8
decoding of the file's bytes (`none` when the bytes are not valid UTF-8). -/
def FS : Type := String → Option (Option String)

/-- Errors that evaluating `setup.py` itself can raise: Python's `open`
raises `FileNotFoundError` for a missing file, and `.read()` on a text-mode
handle opened with `encoding="utf-8"` raises `UnicodeDecodeError` on bytes
that are not valid UTF-8. -/
inductive PyError : Type where
  | fileNotFoundError (path : String)
  | unicodeDecodeError (path : String)
deriving DecidableEq

/-- Semantics of the expression `open(path, encoding="utf-8").read()` in a
given file-system state. -/
def open_read (fs : FS) (path : String) : Except PyError String :=
  match fs path with
  | none => Except.error (PyError.fileNotFoundError path)
  | some none => Except.error (PyError.unicodeDecodeError path)
  | some (some s) => Except.ok s

/-- The keyword arguments of the `setup()` call in `src/setup.py`. -/
structure SetupArgs : Type where
  name : String
  version : String
  packages : List String
  install_requires : List String
  author : String
  author_email : String
  description : String
  long_description : String
  long_description_content_type : String
  url : String
  classifiers : List String
  python_requires : String
deriving DecidableEq

/-- The files of the supplied repository: the source tree holds exactly the
one file `setup.py`. -/
def sourceTree : List String := ["setup.py"]

/-- Semantics of setuptools' `find_packages()` over a directory tree given
as a list of file paths relative to the working directory: it returns the
directories that contain an `__init__.py` marker file, that is, for each
path whose final twelve characters are `/__init__.py`, the directory part
before that suffix. -/
def find_packages (tree : List String) : List String :=
  (tree.filter (fun p => p.toList.drop (p.length - 12) == "/__init__.py".toList)).map
    (fun p => String.mk (p.toList.take (p.length - 12)))

/-- The literal keyword arguments passed to `setup()` in `src/setup.py`,
parameterised by the value of the `long_description` argument (the one
argument whose value comes from reading `README.md`). -/
def setupCallArgs (ld : String) : SetupArgs :=
  { name := "panda_math"
  , version := "0.1.1"
  , packages := find_packages sourceTree
  , install_requires := ["numpy"]
  , author := "Colin Politi"
  , author_email := "urboycolinthepanda@gmail.com"
  , description := "A Vector, Matrix, and transformation utilities for 2D, 3D graphics, and game development."
  , long_description := ld
  , long_description_content_type := "text/markdown"
  , url := "https://github.com/ColinThePanda/panda_math"
  , classifiers :=
      [ "Programming Language :: Python :: 3"
      , "License :: OSI Approved :: MIT License"
      , "Operating System :: OS Independent" ]
  , python_requires := ">=3.6" }

/-- Evaluating the top-level module `setup.py` in a file-system state: the
argument expression `open("README.md", encoding="utf-8").read()` is
evaluated while the arguments of `setup()` are built, so any error it
raises propagates before `setup()` is called; otherwise `setup()` receives
the literal arguments with `long_description` set to the file's text. -/
def evalSetupModule (fs : FS) : Except PyError SetupArgs :=
  match open_read fs "README.md" with
  | Except.error e => Except.error e
  | Except.ok ld => Except.ok (setupCallArgs ld)

/-- The literal keyword arguments passed to `setup()` when the module is
evaluated with the working directory holding the files `tree`: identical to
`setupCallArgs`, except that the `packages` argument is the value of
`find_packages()` over that run-time tree. -/
def setupCallArgsIn (tree : List String) (ld : String) : SetupArgs :=
  { name := "panda_math"
  , version := "0.1.1"
  , packages := find_packages tree
  , install_requires := ["numpy"]
  , author := "Colin Politi"
  , author_email := "urboycolinthepanda@gmail.com"
  , description := "A Vector, Matrix, and transformation utilities for 2D, 3D graphics, and game development."
  , long_description := ld
  , long_description_content_type := "text/markdown"
  , url := "https://github.com/ColinThePanda/panda_math"
  , classifiers :=
      [ "Programming Language :: Python :: 3"
      , "License :: OSI Approved :: MIT License"
      , "Operating System :: OS Independent" ]
  , python_requires := ">=3.6" }

/-- Evaluating the top-level module `setup.py` against the full run-time
file-system state, given as the list `tree` of files present in the working
directory together with the contents view `fs`: the `packages=find_packages()`
argument scans the working directory (it raises no error), then
`open("README.md", encoding="utf-8").read()` is evaluated, and any error it
raises propagates before `setup()` is called; otherwise `setup()` receives
the literal arguments with `packages` computed from `tree` and
`long_description` set to the file's text. -/
def evalSetupModuleIn (tree : List String) (fs : FS) : Except PyError SetupArgs :=
  match open_read fs "README.md" with
  | Except.error e => Except.error e
  | Except.ok ld => Except.ok (setupCallArgsIn tree ld)

/-- A file-system state with no files at all. -/
def emptyFS : FS := fun _ => none

/-- A file-system state whose `README.md` decodes to the text `a`. -/
def fsA : FS := fun p => if p = "README.md" then some (some "a") else none

/-- A file-system state whose `README.md` decodes to the text `b`. -/
def fsB : FS := fun p => if p = "README.md" then some (some "b") else none

/-- A file-system state agreeing with `fsA` on `README.md` but differing on
every other path. -/
def fsC : FS := fun p => if p = "README.md" then some (some "a") else some (some "junk")

/-- A file-system state whose `README.md` exists but holds bytes that are
not valid UTF-8. -/
def fsBad : FS := fun p => if p = "README.md" then some none else none

/-- A working-directory tree holding, besides `setup.py`, a package marker
file `foo/__init__.py`. -/
def treeWithPkg : List String := ["setup.py", "foo/__init__.py"]

/-- A working-directory tree holding, besides `setup.py`, a file that is
not a package marker. -/
def treeExtra : List String := ["setup.py", "docs/notes.txt"]

/-- The `long_description` field of an evaluation result, when the
evaluation succeeded. -/
def resultLongDescription (e : Except PyError SetupArgs) : Option String :=
  match e with
  | Except.ok a => some a.long_description
  | Except.error _ => none

/-- The `packages` field of an evaluation result, when the evaluation
succeeded. -/
def resultPackages (e : Except PyError SetupArgs) : Option (List String) :=
  match e with
  | Except.ok a => some a.packages
  | Except.error _ => none

/-- The numeric value of a decimal digit character, `none` on any other
character. -/
def charDigit? (c : Char) : Option Nat :=
  if c.isDigit then some (c.toNat - 48) else none

/-- Parse a nonempty string of decimal digits, given as a character list. -/
def parseNat? (cs : List Char) : Option Nat :=
  match cs with
  | [] => none
  | _ =>
    cs.foldl (fun acc c =>
      match acc, charDigit? c with
      | some n, some d => some (10 * n + d)
      | _, _ => none) (some 0)

/-- Parse a minimum-version constraint of the form `>=MAJOR.MINOR`, as in
the `python_requires` argument. -/
def minVersionOf (s : String) : Option (Nat × Nat) :=
  match s.toList with
  | '>' :: '=' :: rest =>
    match rest.splitOn '.' with
    | [a, b] =>
      match parseNat? a, parseNat? b with
      | some x, some y => some (x, y)
      | _, _ => none
    | _ => none
  | _ => none

/-- Lexicographic comparison of `(major, minor)` version pairs. -/
def versionLE (a b : Nat × Nat) : Bool :=
  decide (a.1 < b.1 ∨ (a.1 = b.1 ∧ a.2 ≤ b.2))

/-- A Python version `v` satisfies a `python_requires` constraint string
when the string parses as `>=m` and `m ≤ v`. -/
def versionSatisfies (s : String) (v : Nat × Nat) : Bool :=
  match minVersionOf s with
  | some m => versionLE m v
  | none => false

/-- Top-level statements of a Python module, restricted to the forms needed
to describe `setup.py`: a `from ... import ...` statement, an expression
statement consisting of a call, a function definition, a class
definition. -/
inductive Stmt : Type where
  | importFrom (module : String) (names : List String)
  | exprCall (fn : String)
  | defStmt (name : String)
  | classStmt (name : String)
deriving DecidableEq

/-- Whether a statement defines a function or a class. -/
def Stmt.isDefOrClass : Stmt → Bool
  | Stmt.defStmt _ => true
  | Stmt.classStmt _ => true
  | _ => false

/-- The top-level statements of `src/setup.py`: the import from setuptools,
then the one expression statement calling `setup`. -/
def moduleStmts : List Stmt :=
  [ Stmt.importFrom "setuptools" ["setup", "find_packages"]
  , Stmt.exprCall "setup" ]

/-- Whether a PyPI classifier string is a license classifier, that is,
whether its first ten characters are `License ::`. -/
def isLicenseClassifier (s : String) : Bool :=
  s.toList.take 10 == "License ::".toList

/-- Claim C1 counterexample: in an environment with no `README.md`, evaluating the
top-level `setup.py` module raises a `FileNotFoundError` from the module's
own `open("README.md", ...)` expression, so error-producing logic beyond
setuptools and the numeric dependency is present in the supplied source. -/
theorem source_error_on_missing_readme :
    evalSetupModule emptyFS = Except.error (PyError.fileNotFoundError "README.md") := rfl

/-- Claim C1 (amended): in every environment where a UTF-8-decodable
`README.md` exists in the working directory, evaluating the top-level
`setup.py` module raises no error from code written in the supplied source
itself. -/
theorem no_source_error_with_readme (fs : FS) (s : String)
    (h : fs "README.md" = some (some s)) :
    evalSetupModule fs = Except.ok (setupCallArgs s) := by
  unfold evalSetupModule open_read
  rw [h]

/-- Witness for `no_source_error_with_readme` at the concrete state `fsA`. -/
theorem no_source_error_with_readme_witness :
    fsA "README.md" = some (some "a") ∧
    evalSetupModule fsA = Except.ok (setupCallArgs "a") :=
  ⟨rfl, no_source_error_with_readme fsA "a" rfl⟩

/-- Claim C2 counterexample: evaluating the top-level `setup.py` module reads the
file system in two ways, so the metadata is not a function of the source
text alone.  With the same working tree, the states `fsA` and `fsB`
differing only in the text of `README.md` yield different metadata (long
descriptions `a` versus `b`); and with the same `README.md`, the working
trees with and without the package marker `foo/__init__.py` yield
different metadata (`packages` equal to `[foo]` versus the empty list). -/
theorem metadata_depends_on_fs :
    resultLongDescription (evalSetupModuleIn sourceTree fsA) = some "a" ∧
    resultLongDescription (evalSetupModuleIn sourceTree fsB) = some "b" ∧
    resultPackages (evalSetupModuleIn sourceTree fsA) = some [] ∧
    resultPackages (evalSetupModuleIn treeWithPkg fsA) = some ["foo"] ∧
    evalSetupModuleIn sourceTree fsA ≠ evalSetupModuleIn sourceTree fsB ∧
    evalSetupModuleIn sourceTree fsA ≠ evalSetupModuleIn treeWithPkg fsA := by
  refine ⟨rfl, rfl, by decide, by decide, fun h => ?_, fun h => ?_⟩
  · exact absurd (congrArg resultLongDescription h) (by decide)
  · exact absurd (congrArg resultPackages h) (by decide)

/-- Claim C2 (amended): evaluating the top-level `setup.py` module reads from
disk the working directory tree, through `find_packages()`, and the file
`README.md`: the packaging metadata is a function of the source text
together with the package markers of the tree and the contents of
`README.md`, so any two run-time states that agree on both produce the
same metadata. -/
theorem metadata_determined_by_tree_and_readme (t t' : List String) (fs fs' : FS)
    (ht : find_packages t = find_packages t')
    (h : fs "README.md" = fs' "README.md") :
    evalSetupModuleIn t fs = evalSetupModuleIn t' fs' := by
  unfold evalSetupModuleIn open_read
  rw [h]
  cases fs' "README.md" with
  | none => rfl
  | some c =>
    cases c with
    | none => rfl
    | some s =>
      unfold setupCallArgsIn
      rw [ht]

/-- Witness for `metadata_determined_by_tree_and_readme` at the concrete
trees `sourceTree` and `treeExtra`, which hold the same package markers
(none), and the concrete states `fsA` and `fsC`, which agree on `README.md`
and differ on every other path. -/
theorem metadata_determined_by_tree_and_readme_witness :
    find_packages sourceTree = find_packages treeExtra ∧
    fsA "README.md" = fsC "README.md" ∧
    evalSetupModuleIn sourceTree fsA = evalSetupModuleIn treeExtra fsC :=
  ⟨rfl, rfl, metadata_determined_by_tree_and_readme sourceTree treeExtra fsA fsC rfl rfl⟩

/-- Claim C3: evaluating the top-level `setup.py` module requires `README.md` to
exist and be decodable as UTF-8: when it exists and decodes to text `s`,
`setup()` is called with `long_description` equal to `s`; when it does not
exist, evaluation fails with a file-not-found error before the `setup()`
call is made; when it exists but is not valid UTF-8, evaluation fails with
a decode error before the `setup()` call is made. -/
theorem readme_required (fs : FS) :
    (∀ s, fs "README.md" = some (some s) →
      evalSetupModule fs = Except.ok (setupCallArgs s)) ∧
    (fs "README.md" = none →
      evalSetupModule fs = Except.error (PyError.fileNotFoundError "README.md")) ∧
    (fs "README.md" = some none →
      evalSetupModule fs = Except.error (PyError.unicodeDecodeError "README.md")) := by
  refine ⟨fun s hs => ?_, fun h => ?_, fun h => ?_⟩
  · unfold evalSetupModule open_read
    rw [hs]
  · unfold evalSetupModule open_read
    rw [h]
  · unfold evalSetupModule open_read
    rw [h]

/-- Witness for `readme_required` at the concrete states `fsA`, `emptyFS`
and `fsBad`. -/
theorem readme_required_witness :
    evalSetupModule fsA = Except.ok (setupCallArgs "a") ∧
    evalSetupModule emptyFS = Except.error (PyError.fileNotFoundError "README.md") ∧
    evalSetupModule fsBad = Except.error (PyError.unicodeDecodeError "README.md") :=
  ⟨(readme_required fsA).1 "a" rfl, (readme_required emptyFS).2.1 rfl,
    (readme_required fsBad).2.2 rfl⟩

/-- Claim C4: the `name` argument of the `setup()` call equals `panda_math` and
the `version` argument equals `0.1.1`, whatever text the long description
was read as. -/
theorem name_and_version_exact (ld : String) :
    (setupCallArgs ld).name = "panda_math" ∧ (setupCallArgs ld).version = "0.1.1" :=
  ⟨rfl, rfl⟩

/-- Claim C5: the `install_requires` argument of the `setup()` call is the
one-element list containing `numpy` and no other dependency. -/
theorem single_numpy_dependency (ld : String) :
    (setupCallArgs ld).install_requires = ["numpy"] := rfl

/-- Claim C6: the `packages` argument of the `setup()` call is the result of
`find_packages()`, and over the supplied source tree, which holds only
`setup.py` and no `__init__.py` marker, `find_packages()` returns the
empty list, so the built distribution contains no importable packages. -/
theorem no_packages_found (ld : String) :
    (setupCallArgs ld).packages = find_packages sourceTree ∧
    find_packages sourceTree = [] :=
  ⟨rfl, rfl⟩

/-- Claim C7: the `python_requires` argument equals the constraint `>=3.6`, which
parses as minimum version `(3, 6)`, and a Python version `(major, minor)`
satisfies it exactly when it is lexicographically at or above `(3, 6)`. -/
theorem python_requires_ge_36 (ld : String) (v : Nat × Nat) :
    (setupCallArgs ld).python_requires = ">=3.6" ∧
    minVersionOf ((setupCallArgs ld).python_requires) = some (3, 6) ∧
    (versionSatisfies ((setupCallArgs ld).python_requires) v = true ↔
      3 < v.1 ∨ (v.1 = 3 ∧ 6 ≤ v.2)) := by
  refine ⟨rfl, ?_, ?_⟩
  · show minVersionOf ">=3.6" = some (3, 6)
    decide
  · show versionSatisfies ">=3.6" v = true ↔ _
    have hp : minVersionOf ">=3.6" = some (3, 6) := by decide
    unfold versionSatisfies
    rw [hp]
    simp only [versionLE, decide_eq_true_eq]
    omega

/-- Claim C8: the `classifiers` argument of the `setup()` call is exactly the
three-element list holding a Python-3 language classifier, the MIT license
classifier, and an OS-independence classifier, and in particular the MIT
license classifier is a member of it. -/
theorem classifiers_exact (ld : String) :
    (setupCallArgs ld).classifiers =
      [ "Programming Language :: Python :: 3"
      , "License :: OSI Approved :: MIT License"
      , "Operating System :: OS Independent" ] ∧
    "License :: OSI Approved :: MIT License" ∈ (setupCallArgs ld).classifiers := by
  refine ⟨rfl, ?_⟩
  show "License :: OSI Approved :: MIT License" ∈
    [ "Programming Language :: Python :: 3"
    , "License :: OSI Approved :: MIT License"
    , "Operating System :: OS Independent" ]
  decide

/-- Claim C9: the supplied repository is the single 20-line file `setup.py`, whose
top level holds exactly two statements, the import from setuptools followed
by the one expression statement calling `setup`, and defines no function
and no class. -/
theorem module_is_metadata_only :
    sourceLines.length = 20 ∧
    moduleStmts.length = 2 ∧
    moduleStmts.head? = some (Stmt.importFrom "setuptools" ["setup", "find_packages"]) ∧
    moduleStmts.getLast? = some (Stmt.exprCall "setup") ∧
    moduleStmts.all (fun s => !(s.isDefOrClass)) = true :=
  ⟨rfl, rfl, rfl, rfl, rfl⟩

/-- Claim C10: the packaging manifest declares consistent metadata: the name,
version and dependency fields are present with their declared values, and
the license metadata is consistent, the classifiers list holding exactly
one license classifier, the MIT one. -/
theorem manifest_consistent (ld : String) :
    (setupCallArgs ld).name = "panda_math" ∧
    (setupCallArgs ld).version = "0.1.1" ∧
    (setupCallArgs ld).install_requires.length = 1 ∧
    ((setupCallArgs ld).classifiers.filter isLicenseClassifier) =
      ["License :: OSI Approved :: MIT License"] := by
  refine ⟨rfl, rfl, rfl, ?_⟩
  show List.filter isLicenseClassifier
      [ "Programming Language :: Python :: 3"
      , "License :: OSI Approved :: MIT License"
      , "Operating System :: OS Independent" ] =
    ["License :: OSI Approved :: MIT License"]
  decide
